import Mathlib

/-!
Shallow embedding of `pkg/e2/subscriptiontask/client.go` from
onos-ric-sdk-go: a thin gRPC client for the E2 subscription-task service
(Get, List, Watch, NewClient and the filter options applied to List/Watch
requests).

Modelling conventions:
  - the external identifier types `subapi.ID` and `epapi.ID` are Go string
    typedefs; they are modelled as `String`, whose Go zero value is `""`;
  - external payload types (`SubscriptionTask`, the event payload of a
    `WatchSubscriptionTasksResponse`) are opaque to the client and modelled
    as type parameters;
  - Go pointers that may be nil are modelled as `Option`;
  - the remote service / transport is modelled as a function parameter
    (request to `Except` of error or response), and a Watch stream as the
    finite list of successive results of `stream.Recv()`;
  - a goroutine writing to a channel is modelled by the trace of actions it
    performs on the sink (send / close) together with logging actions.
-/

/-! ## Filter options (client.go lines 22-84)

`listOptions` and `watchOptions` are the two accumulator structs; the two
concrete option implementations set the subscription-ID or endpoint-ID
field of whichever accumulator they are applied to. -/

structure listOptions where
  subscriptionID : String
  endpointID : String
deriving DecidableEq, Repr

structure watchOptions where
  subscriptionID : String
  endpointID : String
deriving DecidableEq, Repr

/-- The two concrete implementations of the `FilterOption` interface:
`filterSubscriptionOption` carries `subID`, `filterEndpointOption` carries
`epID`. -/
inductive FilterOption where
  | filterSubscriptionOption (subID : String)
  | filterEndpointOption (epID : String)
deriving DecidableEq, Repr

/-- `WithSubscriptionID` (client.go line 49). -/
def WithSubscriptionID (id : String) : FilterOption :=
  FilterOption.filterSubscriptionOption id

/-- `WithEndpointID` (client.go line 68). -/
def WithEndpointID (id : String) : FilterOption :=
  FilterOption.filterEndpointOption id

/-- `applyList` methods of the two options (client.go lines 59, 78). -/
def applyList : FilterOption → listOptions → listOptions
  | FilterOption.filterSubscriptionOption i, o => { o with subscriptionID := i }
  | FilterOption.filterEndpointOption i, o => { o with endpointID := i }

/-- `applyWatch` methods of the two options (client.go lines 63, 82). -/
def applyWatch : FilterOption → watchOptions → watchOptions
  | FilterOption.filterSubscriptionOption i, o => { o with subscriptionID := i }
  | FilterOption.filterEndpointOption i, o => { o with endpointID := i }

/-- `ListSubscriptionTasksRequest` filter fields (client.go lines 157-160). -/
structure ListSubscriptionTasksRequest where
  SubscriptionID : String
  EndpointID : String
deriving DecidableEq, Repr

/-- `WatchSubscriptionTasksRequest` filter fields (client.go lines 176-179). -/
structure WatchSubscriptionTasksRequest where
  SubscriptionID : String
  EndpointID : String
deriving DecidableEq, Repr

/-- Request construction in `List` (client.go lines 152-160): start from the
zero-valued `listOptions{}` accumulator, apply each option left to right,
then copy the accumulated fields into the request. -/
def buildListRequest (opts : List FilterOption) : ListSubscriptionTasksRequest :=
  let options := opts.foldl (fun acc opt => applyList opt acc)
    { subscriptionID := "", endpointID := "" }
  { SubscriptionID := options.subscriptionID, EndpointID := options.endpointID }

/-- Request construction in `Watch` (client.go lines 171-179). -/
def buildWatchRequest (opts : List FilterOption) : WatchSubscriptionTasksRequest :=
  let options := opts.foldl (fun acc opt => applyWatch opt acc)
    { subscriptionID := "", endpointID := "" }
  { SubscriptionID := options.subscriptionID, EndpointID := options.endpointID }

/-! Spec-side characterisation of the option fold, following the spec's
words: the effective criteria are the left-to-right fold of each option's
effect with later writes to the same field overriding earlier ones, i.e.
each request field holds the LAST value written to it (or the zero value
`""` when no option wrote it). -/

/-- The value an option writes to the subscription-ID field, if any. -/
def subValue : FilterOption → Option String
  | FilterOption.filterSubscriptionOption i => some i
  | FilterOption.filterEndpointOption _ => none

/-- The value an option writes to the endpoint-ID field, if any. -/
def epValue : FilterOption → Option String
  | FilterOption.filterSubscriptionOption _ => none
  | FilterOption.filterEndpointOption i => some i

/-- Spec-side definition ("later options overwrite earlier ones for the
same field"): the last value written by an option in the sequence, if any.
Folding from the right, a value found further right takes precedence. -/
def specLastWrite (f : FilterOption → Option String) (opts : List FilterOption) :
    Option String :=
  opts.foldr (fun o acc => acc.or (f o)) none

/-! ## Watch stream relaying (client.go lines 170-205)

The stream handed back by `WatchSubscriptionTasks` is modelled by the
finite list of successive results of `stream.Recv()`: each result is a
possibly-nil response pointer paired with a possibly-nil error.  The
goroutine spawned by `Watch` (lines 187-203) is modelled by the trace of
actions it performs — sends to the caller's channel `ch`, the `close(ch)`
call, and `log.Error` calls — together with how the loop ended:
`terminated` (it executed `close(ch)` and `break`), `outOfInput` (the
modelled list of receive results ran out while the loop was still
running), or `panicked` (it dereferenced a nil response pointer in
`resp.Event`). -/

/-- Errors a `stream.Recv()` call can return, as the code distinguishes
them: the `io.EOF` sentinel, the `context.Canceled` sentinel, and any
other error value. -/
inductive RecvError where
  | eof
  | canceled
  | other (msg : String)
deriving DecidableEq, Repr

/-- `WatchSubscriptionTasksResponse` with its `Event` field; the event
payload is opaque to the client and is a type parameter here. -/
structure WatchSubscriptionTasksResponse (α : Type) where
  Event : α
deriving DecidableEq, Repr

/-- One result of `stream.Recv()`: a possibly-nil response pointer and a
possibly-nil error. -/
abbrev Recv (α : Type) := Option (WatchSubscriptionTasksResponse α) × Option RecvError

/-- Observable actions of the relaying goroutine: a send on the caller's
channel, the `close(ch)` call, and a `log.Error` call. -/
inductive Act (α : Type) where
  | send (e : α)
  | closeSink
  | logErr (msg : String)
deriving DecidableEq, Repr

/-- How the relaying loop ended on the modelled finite receive list. -/
inductive LoopEnd where
  | terminated
  | outOfInput
  | panicked
deriving DecidableEq, Repr

/-- The terminal-condition test of line 190: `err == io.EOF || err ==
context.Canceled`. -/
def isTerminal : Option RecvError → Bool
  | some RecvError.eof => true
  | some RecvError.canceled => true
  | _ => false

/-- The logging of lines 195-197: a non-nil error that did not pass the
terminal test is logged. -/
def logActs (α : Type) : Option RecvError → List (Act α)
  | some (RecvError.other m) => [Act.logErr m]
  | _ => []

/-- The `for` loop of the goroutine at lines 187-203, applied to the finite
list of successive `stream.Recv()` results.  Each iteration receives, closes
the channel and breaks on `io.EOF`/`context.Canceled`, logs any other
non-nil error, and then unconditionally evaluates `resp.Event` and sends it
on `ch` — which panics when `resp` is nil. -/
def watchRelayLoop {α : Type} : List (Recv α) → List (Act α) × LoopEnd
  | [] => ([], LoopEnd.outOfInput)
  | (resp, err) :: rest =>
    if isTerminal err then
      ([Act.closeSink], LoopEnd.terminated)
    else
      match resp with
      | none => (logActs α err, LoopEnd.panicked)
      | some r =>
          (logActs α err ++ Act.send r.Event :: (watchRelayLoop rest).1,
            (watchRelayLoop rest).2)

/-- The events a trace sends to the sink, in order. -/
def sentEvents {α : Type} (acts : List (Act α)) : List α :=
  acts.filterMap fun a =>
    match a with
    | Act.send e => some e
    | _ => none

/-- Whether an action is the `close(ch)` call. -/
def isClose {α : Type} : Act α → Bool
  | Act.closeSink => true
  | _ => false

/-! ## Watch call surface (client.go lines 170-205)

The remote stream-open call `c.client.WatchSubscriptionTasks(ctx, &req)` is
modelled as a function from the request to either an error or the stream
(its list of receive results). -/

/-- The observable outcome of one call to `Watch`: the error returned
synchronously (nil on success), the sink actions performed before
returning, and the trace of the spawned relaying goroutine (`none` when no
goroutine was started). -/
structure WatchCall (α : Type) where
  syncErr : Option String
  immediateActs : List (Act α)
  relayTask : Option (List (Act α) × LoopEnd)
deriving Repr

/-- `Watch` (client.go lines 170-205): build the request from the options,
open the stream; on failure close the channel and return the error without
spawning the goroutine; on success spawn the relaying goroutine and return
nil immediately. -/
def Watch {α : Type} (opts : List FilterOption)
    (openStream : WatchSubscriptionTasksRequest → Except String (List (Recv α))) :
    WatchCall α :=
  match openStream (buildWatchRequest opts) with
  | Except.error e =>
      { syncErr := some e, immediateActs := [Act.closeSink], relayTask := none }
  | Except.ok recvs =>
      { syncErr := none, immediateActs := [], relayTask := some (watchRelayLoop recvs) }

/-! ## Get (client.go lines 136-148)

The remote call `c.client.GetSubscriptionTask(ctx, req)` is modelled as a
function from the request to either a service error or a response.  The
error taxonomy the spec names (a not-found error from the service versus a
channel-level transport error) is modelled by `ServiceErr`; the
`SubscriptionTask` payload is opaque and is a type parameter. -/

/-- `GetSubscriptionTaskRequest` with its `ID` field. -/
structure GetSubscriptionTaskRequest where
  ID : String
deriving DecidableEq, Repr

/-- `GetSubscriptionTaskResponse` with its possibly-nil `Task` pointer. -/
structure GetSubscriptionTaskResponse (τ : Type) where
  Task : Option τ
deriving DecidableEq, Repr

/-- The two error classes the spec distinguishes for `Get`. -/
inductive ServiceErr where
  | notFound (id : String)
  | transport (msg : String)
deriving DecidableEq, Repr

/-- `Get` (client.go lines 137-148): build the request carrying exactly the
given ID, call the service, return its error unchanged on failure and the
response's `Task` field on success. -/
def Get {τ : Type}
    (svc : GetSubscriptionTaskRequest → Except ServiceErr (GetSubscriptionTaskResponse τ))
    (id : String) : Except ServiceErr (Option τ) :=
  match svc { ID := id } with
  | Except.error err => Except.error err
  | Except.ok resp => Except.ok resp.Task

/-! ## NewClient (client.go lines 104-134)

`e2.GetClientCredentials()` lives elsewhere in the repository and is
modelled as an `Except` value supplied by the environment (the spec: an
external credential provider queried once, returning transport security
material or failing); `grpc.DialContext` is modelled as a function from the
credential material and the address to either an error or a connection.
The second component of the result records the addresses actually passed
to the dialer, and `NewE2SubscriptionTaskServiceClient(conn)` is modelled
as wrapping the connection it is given.  The expression `dst.Addrs[0]` is
evaluated before the dial call and panics in Go when the slice is empty. -/

/-- `Destination` (client.go lines 104-108). -/
structure Destination where
  Addrs : List String
deriving DecidableEq, Repr

/-- `localClient` (client.go lines 98-102): a possibly-nil connection and a
possibly-nil service client (which wraps the connection it was built
from). -/
structure localClient (γ : Type) where
  conn : Option γ
  client : Option γ
deriving DecidableEq, Repr

/-- The Go zero value `localClient{}` returned on the failure paths. -/
def zeroLocalClient (γ : Type) : localClient γ :=
  { conn := none, client := none }

/-- Outcome of a `NewClient` call: either a normal return of a
possibly-nil client pointer and a possibly-nil error, or a runtime panic
(index out of range). -/
inductive NewClientOutcome (γ : Type) where
  | ret (client : Option (localClient γ)) (err : Option String)
  | panicked
deriving DecidableEq, Repr

/-- `NewClient` (client.go lines 111-134), instrumented with the list of
addresses passed to the dialer. -/
def NewClient {τ γ : Type} (creds : Except String τ)
    (dial : τ → String → Except String γ) (dst : Destination) :
    NewClientOutcome γ × List String :=
  match creds with
  | Except.error e => (NewClientOutcome.ret (some (zeroLocalClient γ)) (some e), [])
  | Except.ok tlsConfig =>
    match dst.Addrs with
    | [] => (NewClientOutcome.panicked, [])
    | addr :: _ =>
      match dial tlsConfig addr with
      | Except.error e =>
          (NewClientOutcome.ret (some (zeroLocalClient γ)) (some e), [addr])
      | Except.ok conn =>
          (NewClientOutcome.ret (some { conn := some conn, client := some conn }) none,
            [addr])

lemma specLastWrite_nil (f : FilterOption → Option String) :
    specLastWrite f [] = none := rfl

lemma specLastWrite_cons (f : FilterOption → Option String) (o : FilterOption)
    (opts : List FilterOption) :
    specLastWrite f (o :: opts) = (specLastWrite f opts).or (f o) := rfl

lemma specLastWrite_append (f : FilterOption → Option String)
    (l l' : List FilterOption) :
    specLastWrite f (l ++ l') = (specLastWrite f l').or (specLastWrite f l) := by
  induction l with
  | nil => simp [specLastWrite]
  | cons o l ih =>
      cases h : specLastWrite f l' with
      | none => simp_all [specLastWrite_cons]
      | some v => simp_all [specLastWrite_cons]

/-- The accumulated subscription-ID after folding `applyList` over the
options equals the last value written to that field (defaulting to the
initial accumulator's value). -/
lemma foldl_applyList_subscriptionID (opts : List FilterOption) (o : listOptions) :
    (opts.foldl (fun acc opt => applyList opt acc) o).subscriptionID
      = (specLastWrite subValue opts).getD o.subscriptionID := by
  induction opts generalizing o with
  | nil => rfl
  | cons x xs ih =>
      rw [List.foldl_cons, ih, specLastWrite_cons]
      cases x <;> cases specLastWrite subValue xs <;> rfl

lemma foldl_applyList_endpointID (opts : List FilterOption) (o : listOptions) :
    (opts.foldl (fun acc opt => applyList opt acc) o).endpointID
      = (specLastWrite epValue opts).getD o.endpointID := by
  induction opts generalizing o with
  | nil => rfl
  | cons x xs ih =>
      rw [List.foldl_cons, ih, specLastWrite_cons]
      cases x <;> cases specLastWrite epValue xs <;> rfl

lemma foldl_applyWatch_subscriptionID (opts : List FilterOption) (o : watchOptions) :
    (opts.foldl (fun acc opt => applyWatch opt acc) o).subscriptionID
      = (specLastWrite subValue opts).getD o.subscriptionID := by
  induction opts generalizing o with
  | nil => rfl
  | cons x xs ih =>
      rw [List.foldl_cons, ih, specLastWrite_cons]
      cases x <;> cases specLastWrite subValue xs <;> rfl

lemma foldl_applyWatch_endpointID (opts : List FilterOption) (o : watchOptions) :
    (opts.foldl (fun acc opt => applyWatch opt acc) o).endpointID
      = (specLastWrite epValue opts).getD o.endpointID := by
  induction opts generalizing o with
  | nil => rfl
  | cons x xs ih =>
      rw [List.foldl_cons, ih, specLastWrite_cons]
      cases x <;> cases specLastWrite epValue xs <;> rfl

lemma buildListRequest_subscriptionID (opts : List FilterOption) :
    (buildListRequest opts).SubscriptionID = (specLastWrite subValue opts).getD "" :=
  foldl_applyList_subscriptionID opts { subscriptionID := "", endpointID := "" }

lemma buildListRequest_endpointID (opts : List FilterOption) :
    (buildListRequest opts).EndpointID = (specLastWrite epValue opts).getD "" :=
  foldl_applyList_endpointID opts { subscriptionID := "", endpointID := "" }

lemma buildWatchRequest_subscriptionID (opts : List FilterOption) :
    (buildWatchRequest opts).SubscriptionID = (specLastWrite subValue opts).getD "" :=
  foldl_applyWatch_subscriptionID opts { subscriptionID := "", endpointID := "" }

lemma buildWatchRequest_endpointID (opts : List FilterOption) :
    (buildWatchRequest opts).EndpointID = (specLastWrite epValue opts).getD "" :=
  foldl_applyWatch_endpointID opts { subscriptionID := "", endpointID := "" }

/-- C2: for every finite sequence of options passed to List or Watch, the
filter criteria placed in the outgoing request equal the left-to-right fold
of each option's effect starting from unset (empty-string) criteria, with a
later option writing the same field overriding any earlier one — each
request field is the last value written to it, defaulting to unset; in
particular the empty sequence yields a request with both fields unset, and
a subscription-ID option at the end of the sequence overrides every earlier
one. -/
theorem c2_option_fold (opts : List FilterOption) :
    (buildListRequest opts
        = { SubscriptionID := (specLastWrite subValue opts).getD ""
            EndpointID := (specLastWrite epValue opts).getD "" })
    ∧ (buildWatchRequest opts
        = { SubscriptionID := (specLastWrite subValue opts).getD ""
            EndpointID := (specLastWrite epValue opts).getD "" })
    ∧ buildListRequest [] = { SubscriptionID := "", EndpointID := "" }
    ∧ buildWatchRequest [] = { SubscriptionID := "", EndpointID := "" }
    ∧ (∀ a b, (buildListRequest
        (opts ++ [WithSubscriptionID a, WithSubscriptionID b])).SubscriptionID = b) := by
  refine ⟨?_, ?_, rfl, rfl, ?_⟩
  · have h1 := buildListRequest_subscriptionID opts
    have h2 := buildListRequest_endpointID opts
    cases hb : buildListRequest opts
    rw [hb] at h1 h2
    simp_all
  · have h1 := buildWatchRequest_subscriptionID opts
    have h2 := buildWatchRequest_endpointID opts
    cases hb : buildWatchRequest opts
    rw [hb] at h1 h2
    simp_all
  · intro a b
    rw [buildListRequest_subscriptionID, specLastWrite_append]
    rfl

/-! ## Lemmas about the relaying loop -/

lemma sentEvents_nil {α : Type} : sentEvents ([] : List (Act α)) = [] := rfl

lemma sentEvents_send_cons {α : Type} (e : α) (l : List (Act α)) :
    sentEvents (Act.send e :: l) = e :: sentEvents l := rfl

lemma sentEvents_append {α : Type} (l l' : List (Act α)) :
    sentEvents (l ++ l') = sentEvents l ++ sentEvents l' := by
  simp [sentEvents]

lemma sentEvents_logActs {α : Type} (err : Option RecvError) :
    sentEvents (logActs α err) = [] := by
  cases err with
  | none => rfl
  | some e => cases e <;> rfl

lemma countP_isClose_logActs {α : Type} (err : Option RecvError) :
    (logActs α err).countP isClose = 0 := by
  cases err with
  | none => rfl
  | some e => cases e <;> rfl

lemma watchRelayLoop_terminal {α : Type} (resp : Option (WatchSubscriptionTasksResponse α))
    (err : Option RecvError) (hT : isTerminal err = true) (rest : List (Recv α)) :
    watchRelayLoop ((resp, err) :: rest) = ([Act.closeSink], LoopEnd.terminated) := by
  simp [watchRelayLoop, hT]

lemma watchRelayLoop_panic {α : Type} (err : Option RecvError)
    (hT : isTerminal err = false) (rest : List (Recv α)) :
    watchRelayLoop (((none : Option (WatchSubscriptionTasksResponse α)), err) :: rest)
      = (logActs α err, LoopEnd.panicked) := by
  simp [watchRelayLoop, hT]

lemma watchRelayLoop_step {α : Type} (r : WatchSubscriptionTasksResponse α)
    (err : Option RecvError) (hT : isTerminal err = false) (rest : List (Recv α)) :
    watchRelayLoop ((some r, err) :: rest)
      = (logActs α err ++ Act.send r.Event :: (watchRelayLoop rest).1,
          (watchRelayLoop rest).2) := by
  simp [watchRelayLoop, hT]

lemma watchRelayLoop_terminated_iff {α : Type} (rs : List (Recv α)) :
    (watchRelayLoop rs).2 = LoopEnd.terminated ↔
      ((∀ r ∈ rs.takeWhile (fun r => !(isTerminal r.2)), r.1.isSome = true)
        ∧ ∃ r ∈ rs, isTerminal r.2 = true) := by
  induction rs with
  | nil => simp [watchRelayLoop]
  | cons hd rest ih =>
      obtain ⟨resp, err⟩ := hd
      by_cases hT : isTerminal err = true
      · rw [watchRelayLoop_terminal resp err hT rest]
        simp [List.takeWhile_cons, hT]
      · replace hT : isTerminal err = false := by simpa using hT
        cases resp with
        | none =>
            rw [watchRelayLoop_panic err hT rest]
            simp [List.takeWhile_cons, hT]
        | some r =>
            rw [watchRelayLoop_step r err hT rest]
            simp [List.takeWhile_cons, hT, ih]

lemma watchRelayLoop_close_shape {α : Type} (rs : List (Recv α)) :
    ((watchRelayLoop rs).2 = LoopEnd.terminated
        ∧ ∃ pre, (watchRelayLoop rs).1 = pre ++ [Act.closeSink]
            ∧ pre.countP isClose = 0)
    ∨ ((watchRelayLoop rs).2 ≠ LoopEnd.terminated
        ∧ (watchRelayLoop rs).1.countP isClose = 0) := by
  induction rs with
  | nil => right; simp [watchRelayLoop]
  | cons hd rest ih =>
      obtain ⟨resp, err⟩ := hd
      by_cases hT : isTerminal err = true
      · left
        rw [watchRelayLoop_terminal resp err hT rest]
        exact ⟨rfl, [], rfl, rfl⟩
      · replace hT : isTerminal err = false := by simpa using hT
        cases resp with
        | none =>
            right
            rw [watchRelayLoop_panic err hT rest]
            exact ⟨by simp, countP_isClose_logActs err⟩
        | some r =>
            rw [watchRelayLoop_step r err hT rest]
            rcases ih with ⟨h2, pre, h1, hc⟩ | ⟨h2, hc⟩
            · left
              refine ⟨h2, logActs α err ++ Act.send r.Event :: pre, ?_, ?_⟩
              · rw [h1]; simp
              · simp [List.countP_append, List.countP_cons, hc,
                  countP_isClose_logActs, isClose]
            · right
              refine ⟨h2, ?_⟩
              simp [List.countP_append, List.countP_cons, hc,
                countP_isClose_logActs, isClose]

lemma watchRelayLoop_panicked_iff {α : Type} (rs : List (Recv α)) :
    (watchRelayLoop rs).2 = LoopEnd.panicked ↔
      ¬ (∀ r ∈ rs.takeWhile (fun r => !(isTerminal r.2)), r.1.isSome = true) := by
  induction rs with
  | nil => simp [watchRelayLoop]
  | cons hd rest ih =>
      obtain ⟨resp, err⟩ := hd
      by_cases hT : isTerminal err = true
      · rw [watchRelayLoop_terminal resp err hT rest]
        simp [List.takeWhile_cons, hT]
      · replace hT : isTerminal err = false := by simpa using hT
        cases resp with
        | none =>
            rw [watchRelayLoop_panic err hT rest]
            simp [List.takeWhile_cons, hT]
        | some r =>
            rw [watchRelayLoop_step r err hT rest]
            simp [List.takeWhile_cons, hT, ih]

lemma watchRelayLoop_sends_nonterminal {α : Type} (rs : List (Recv α))
    (h : ∀ r ∈ rs.takeWhile (fun r => !(isTerminal r.2)), r.1.isSome = true) :
    sentEvents (watchRelayLoop rs).1
      = ((rs.takeWhile (fun r => !(isTerminal r.2))).filterMap Prod.fst).map
          WatchSubscriptionTasksResponse.Event := by
  induction rs with
  | nil => rfl
  | cons hd rest ih =>
      obtain ⟨resp, err⟩ := hd
      by_cases hT : isTerminal err = true
      · rw [watchRelayLoop_terminal resp err hT rest]
        simp [List.takeWhile_cons, hT, sentEvents]
      · replace hT : isTerminal err = false := by simpa using hT
        have hhd : resp.isSome = true := by
          apply h (resp, err)
          simp [List.takeWhile_cons, hT]
        cases resp with
        | none => simp at hhd
        | some r =>
            rw [watchRelayLoop_step r err hT rest]
            have hrest : ∀ x ∈ rest.takeWhile (fun r => !(isTerminal r.2)),
                x.1.isSome = true := by
              intro x hx
              apply h
              simp [List.takeWhile_cons, hT]
              exact Or.inr hx
            rw [sentEvents_append, sentEvents_logActs, List.nil_append,
              sentEvents_send_cons, ih hrest]
            simp [List.takeWhile_cons, hT]

lemma watchRelayLoop_sends_wf {α : Type} (rs : List (Recv α))
    (h : ∀ r ∈ rs, r.1.isSome = r.2.isNone) :
    sentEvents (watchRelayLoop rs).1
      = ((rs.takeWhile (fun r => r.2.isNone)).filterMap Prod.fst).map
          WatchSubscriptionTasksResponse.Event := by
  induction rs with
  | nil => rfl
  | cons hd rest ih =>
      obtain ⟨resp, err⟩ := hd
      have hhd : resp.isSome = err.isNone := h (resp, err) (by simp)
      have hrest : ∀ r ∈ rest, r.1.isSome = r.2.isNone := fun r hr => h r (by simp [hr])
      cases err with
      | none =>
          cases resp with
          | none => simp at hhd
          | some r =>
              rw [watchRelayLoop_step r none rfl rest]
              rw [sentEvents_append, sentEvents_logActs, List.nil_append,
                sentEvents_send_cons, ih hrest]
              simp [List.takeWhile_cons]
      | some e =>
          have hresp : resp = none := by
            cases resp with
            | none => rfl
            | some r => simp at hhd
          subst hresp
          cases e with
          | eof =>
              rw [watchRelayLoop_terminal none (some RecvError.eof) rfl rest]
              simp [List.takeWhile_cons, sentEvents]
          | canceled =>
              rw [watchRelayLoop_terminal none (some RecvError.canceled) rfl rest]
              simp [List.takeWhile_cons, sentEvents]
          | other m =>
              rw [watchRelayLoop_panic (some (RecvError.other m)) rfl rest]
              simp [List.takeWhile_cons, sentEvents_logActs]

/-! ## Claim theorems -/

/-- Claim C1 (amended): the relaying goroutine closes the caller's channel
at most once; it closes it exactly when its loop terminated, which happens
precisely when some receive returns the io.EOF or context.Canceled
sentinel and every earlier non-terminal receive carried a non-nil
response; and when the close happens it is the final sink action.  An
unrecoverable transport error on receive does not terminate the sink (see
the counterexample). -/
theorem c1_sink_termination {α : Type} (rs : List (Recv α)) :
    (watchRelayLoop rs).1.countP isClose ≤ 1
    ∧ ((watchRelayLoop rs).1.countP isClose = 1
        ↔ (watchRelayLoop rs).2 = LoopEnd.terminated)
    ∧ ((watchRelayLoop rs).2 = LoopEnd.terminated ↔
        ((∀ r ∈ rs.takeWhile (fun r => !(isTerminal r.2)), r.1.isSome = true)
          ∧ ∃ r ∈ rs, isTerminal r.2 = true))
    ∧ ((watchRelayLoop rs).2 = LoopEnd.terminated →
        ∃ pre, (watchRelayLoop rs).1 = pre ++ [Act.closeSink]
          ∧ pre.countP isClose = 0) := by
  rcases watchRelayLoop_close_shape rs with ⟨h2, pre, h1, hc⟩ | ⟨h2, hc⟩
  · refine ⟨?_, ?_, watchRelayLoop_terminated_iff rs, fun _ => ⟨pre, h1, hc⟩⟩
    · rw [h1]
      simp [List.countP_append, List.countP_cons, List.countP_nil, hc, isClose]
    · constructor
      · intro _
        exact h2
      · intro _
        rw [h1]
        simp [List.countP_append, List.countP_cons, List.countP_nil, hc, isClose]
  · refine ⟨?_, ?_, watchRelayLoop_terminated_iff rs, fun ht => absurd ht h2⟩
    · simp [hc]
    · constructor
      · intro h1
        rw [hc] at h1
        exact absurd h1 (by decide)
      · intro ht
        exact absurd ht h2

/-- Claim C1 witness: a stream delivering one event and then a clean
end-of-stream makes the goroutine close the channel exactly once. -/
theorem c1_sink_termination_witness :
    (watchRelayLoop [((some { Event := (7 : Nat) }
        : Option (WatchSubscriptionTasksResponse Nat)), none),
      ((none : Option (WatchSubscriptionTasksResponse Nat)),
        some RecvError.eof)]).1.countP isClose = 1 :=
  (c1_sink_termination [((some { Event := (7 : Nat) }
      : Option (WatchSubscriptionTasksResponse Nat)), none),
    ((none : Option (WatchSubscriptionTasksResponse Nat)),
      some RecvError.eof)]).2.1.mpr rfl

/-- Claim C1 counterexample: a Watch stream that ends with an unrecoverable
transport error on receive (a nil response together with an error that is
neither io.EOF nor context.Canceled).  The relaying goroutine never closes
the caller's channel: it logs the error and then panics dereferencing the
nil response, so the sink receives no termination signal although the
stream ended with an unrecoverable transport error. -/
theorem c1_counterexample :
    watchRelayLoop [((none : Option (WatchSubscriptionTasksResponse Nat)),
        some (RecvError.other "connection reset"))]
      = ([Act.logErr "connection reset"], LoopEnd.panicked)
    ∧ (watchRelayLoop [((none : Option (WatchSubscriptionTasksResponse Nat)),
        some (RecvError.other "connection reset"))]).1.countP isClose = 0 :=
  ⟨rfl, rfl⟩

/-- Claim C3 (code bug): on a per-message receive error other than the two
terminal sentinels the code logs the error, but then unconditionally
dereferences the response pointer — which is nil exactly when the receive
returned an error — and panics.  The relaying loop therefore stops without
attempting to receive the next message (here an ordinary event that is
never delivered) and without closing the sink, instead of continuing as
the logging suggests it intends to. -/
theorem c3_recoverable_error_panics :
    watchRelayLoop [((none : Option (WatchSubscriptionTasksResponse Nat)),
        some (RecvError.other "transport error")),
      (some { Event := 5 }, none)]
      = ([Act.logErr "transport error"], LoopEnd.panicked) := rfl

/-- Claim C4 (confirmed): under the receive contract of the transport (a
receive yields a message exactly when it yields no error), the relaying
goroutine sends to the sink exactly the events of the successfully
received responses, in receive order — no reordering, batching, dropping
or duplication.  The successfully received responses are the ones before
the first error, where the loop stops relaying. -/
theorem c4_event_order {α : Type} (rs : List (Recv α))
    (h : ∀ r ∈ rs, r.1.isSome = r.2.isNone) :
    sentEvents (watchRelayLoop rs).1
      = ((rs.takeWhile (fun r => r.2.isNone)).filterMap Prod.fst).map
          WatchSubscriptionTasksResponse.Event :=
  watchRelayLoop_sends_wf rs h

/-- Claim C4 witness: two events then a clean end-of-stream are delivered
as exactly those two events in order. -/
theorem c4_event_order_witness :
    sentEvents (watchRelayLoop [((some { Event := 1 }
        : Option (WatchSubscriptionTasksResponse Nat)), none),
      (some { Event := 2 }, none),
      ((none : Option (WatchSubscriptionTasksResponse Nat)),
        some RecvError.eof)]).1 = [1, 2] := by
  rw [c4_event_order [((some { Event := 1 }
      : Option (WatchSubscriptionTasksResponse Nat)), none),
    (some { Event := 2 }, none),
    ((none : Option (WatchSubscriptionTasksResponse Nat)),
      some RecvError.eof)] (by decide)]
  decide

/-- Claim C8 (confirmed): the relaying loop performs a send on every
processed iteration that does not hit a terminal condition — including an
iteration whose receive returned a non-terminal error — and it panics if
and only if some processed non-terminal receive carried a nil response; so
the dereference is safe exactly under the hypothesis that every
non-terminal receive yields a non-nil response, in which case the loop
sends the event of every non-terminal receive in order. -/
theorem c8_nil_dereference_safety {α : Type} (rs : List (Recv α)) :
    ((watchRelayLoop rs).2 = LoopEnd.panicked ↔
      ¬ (∀ r ∈ rs.takeWhile (fun r => !(isTerminal r.2)), r.1.isSome = true))
    ∧ ((∀ r ∈ rs.takeWhile (fun r => !(isTerminal r.2)), r.1.isSome = true) →
        sentEvents (watchRelayLoop rs).1
          = ((rs.takeWhile (fun r => !(isTerminal r.2))).filterMap Prod.fst).map
              WatchSubscriptionTasksResponse.Event)
    ∧ (∀ (r : WatchSubscriptionTasksResponse α) (m : String) (rest : List (Recv α)),
        watchRelayLoop ((some r, some (RecvError.other m)) :: rest)
          = (Act.logErr m :: Act.send r.Event :: (watchRelayLoop rest).1,
              (watchRelayLoop rest).2)) :=
  ⟨watchRelayLoop_panicked_iff rs, watchRelayLoop_sends_nonterminal rs,
    fun r m rest => watchRelayLoop_step r (some (RecvError.other m)) rfl rest⟩

/-- Claim C8 witness: an errored receive that (hypothetically) still
carries a response is followed by a send of that response's event, and the
loop keeps receiving. -/
theorem c8_nil_dereference_safety_witness :
    sentEvents (watchRelayLoop [((some { Event := (3 : Nat) }
        : Option (WatchSubscriptionTasksResponse Nat)),
        some (RecvError.other "glitch")),
      (some { Event := 4 }, none)]).1 = [3, 4] := by
  rw [(c8_nil_dereference_safety [((some { Event := (3 : Nat) }
      : Option (WatchSubscriptionTasksResponse Nat)),
      some (RecvError.other "glitch")),
    (some { Event := 4 }, none)]).2.1 (by decide)]
  decide

/-- Claim C5 (confirmed): Watch fails synchronously exactly when the
initial stream-open call fails; in that case it closes the caller's
channel and returns the error unchanged without starting a relaying task,
and otherwise it returns nil having started the relaying task. -/
theorem c5_sync_failure {α : Type} (opts : List FilterOption)
    (openStream : WatchSubscriptionTasksRequest → Except String (List (Recv α))) :
    ((Watch opts openStream).syncErr ≠ none ↔
      ∃ e, openStream (buildWatchRequest opts) = Except.error e)
    ∧ (∀ e, openStream (buildWatchRequest opts) = Except.error e →
        Watch opts openStream
          = { syncErr := some e, immediateActs := [Act.closeSink],
              relayTask := none })
    ∧ (∀ recvs, openStream (buildWatchRequest opts) = Except.ok recvs →
        Watch opts openStream
          = { syncErr := none, immediateActs := [],
              relayTask := some (watchRelayLoop recvs) }) := by
  cases h : openStream (buildWatchRequest opts) with
  | error e => refine ⟨?_, ?_, ?_⟩ <;> simp [Watch, h]
  | ok recvs => refine ⟨?_, ?_, ?_⟩ <;> simp [Watch, h]

/-- Claim C5 witness: a failing stream-open yields the error, a closed
sink, and no relaying task. -/
theorem c5_sync_failure_witness :
    Watch ([] : List FilterOption)
        (fun _ => (Except.error "dial failed" : Except String (List (Recv Nat))))
      = { syncErr := some "dial failed", immediateActs := [Act.closeSink],
          relayTask := none } :=
  (c5_sync_failure [] (fun _ => Except.error "dial failed")).2.1 "dial failed" rfl

/-- Claim C6 (confirmed): Get sends a get-by-id request carrying exactly
the given ID with no client-side validation, returns the response's task
on success, and on failure returns the service's error unchanged — so a
not-found error from the service stays distinguishable from a transport
error. -/
theorem c6_get_propagation {τ : Type}
    (svc : GetSubscriptionTaskRequest → Except ServiceErr (GetSubscriptionTaskResponse τ))
    (id : String) :
    (Get svc id = Except.map (fun resp => resp.Task) (svc { ID := id }))
    ∧ (∀ e, svc { ID := id } = Except.error e → Get svc id = Except.error e)
    ∧ (∀ resp, svc { ID := id } = Except.ok resp → Get svc id = Except.ok resp.Task)
    ∧ (∀ i m, ServiceErr.notFound i ≠ ServiceErr.transport m) := by
  refine ⟨?_, ?_, ?_, ?_⟩
  · cases h : svc { ID := id } <;> simp [Get, h, Except.map]
  · intro e he
    simp [Get, he]
  · intro resp hr
    simp [Get, hr]
  · intro i m h
    cases h

/-- Claim C6 witness: a service that reports the ID as absent makes Get
surface that same not-found error. -/
theorem c6_get_propagation_witness :
    Get (fun req => (Except.error (ServiceErr.notFound req.ID)
        : Except ServiceErr (GetSubscriptionTaskResponse Unit))) "missing-task"
      = Except.error (ServiceErr.notFound "missing-task") :=
  (c6_get_propagation (fun req => Except.error (ServiceErr.notFound req.ID))
    "missing-task").2.1 (ServiceErr.notFound "missing-task") rfl

/-- Claim C7 (confirmed): for a destination whose address list has more
than one entry, NewClient passes only the first address to the dialer and
never a subsequent one. -/
theorem c7_first_address_only {τ γ : Type} (creds : Except String τ)
    (dial : τ → String → Except String γ) (dst : Destination)
    (hl : 1 < dst.Addrs.length) :
    ∀ a ∈ (NewClient creds dial dst).2, dst.Addrs.head? = some a := by
  intro a ha
  cases creds with
  | error e => simp [NewClient] at ha
  | ok t =>
      obtain ⟨Addrs⟩ := dst
      cases Addrs with
      | nil => simp at hl
      | cons addr rest =>
          cases hd : dial t addr with
          | error e =>
              simp [NewClient, hd] at ha
              simp [ha]
          | ok conn =>
              simp [NewClient, hd] at ha
              simp [ha]

/-- Claim C7 witness: a two-address destination is dialed only at its first
address. -/
theorem c7_first_address_only_witness :
    (Destination.mk ["addr1", "addr2"]).Addrs.head? = some "addr1" :=
  c7_first_address_only (Except.ok ()) (fun _ a => (Except.ok a : Except String String))
    (Destination.mk ["addr1", "addr2"]) (by decide) "addr1" (by decide)

/-- Claim C9 counterexample: with a failing credential provider and an
empty address list, NewClient returns the credential error together with
the zero-valued client — it neither reaches the indexing expression nor
panics, because credential acquisition failed first, so NewClient does not
panic on every empty address list. -/
theorem c9_counterexample :
    NewClient (Except.error "credential failure" : Except String Unit)
        (fun _ a => (Except.ok a : Except String String)) (Destination.mk [])
      = (NewClientOutcome.ret (some (zeroLocalClient String))
          (some "credential failure"), []) := rfl

/-- Claim C9 (amended): once credential acquisition has succeeded,
NewClient indexes the first element of the address list with no bounds
check before dialing, so it panics exactly when the address list is empty
— dialing nothing and returning no error in that case. -/
theorem c9_empty_address_panic {τ γ : Type} (creds : Except String τ)
    (dial : τ → String → Except String γ) (dst : Destination) (t : τ)
    (hc : creds = Except.ok t) :
    ((NewClient creds dial dst).1 = NewClientOutcome.panicked ↔ dst.Addrs = [])
    ∧ (dst.Addrs = [] → (NewClient creds dial dst).2 = []) := by
  subst hc
  obtain ⟨Addrs⟩ := dst
  cases Addrs with
  | nil => exact ⟨⟨fun _ => rfl, fun _ => rfl⟩, fun _ => rfl⟩
  | cons addr rest =>
      cases hd : dial t addr with
      | error e => simp [NewClient, hd]
      | ok conn => simp [NewClient, hd]

/-- Claim C9 witness: with credentials obtained, an empty address list
makes NewClient panic instead of returning an error. -/
theorem c9_empty_address_panic_witness :
    (NewClient (Except.ok () : Except String Unit)
        (fun _ a => (Except.ok a : Except String String)) (Destination.mk [])).1
      = NewClientOutcome.panicked :=
  (c9_empty_address_panic (Except.ok ()) (fun _ a => Except.ok a)
    (Destination.mk []) () rfl).1.mpr rfl

/-- Claim C10 (confirmed): every failing return of NewClient — credential
failure or dial failure — carries the non-nil zero-valued client alongside
the error; a credential failure is returned before any dialing, and an
address is dialed only when credential acquisition succeeded. -/
theorem c10_failure_returns_zero_client {τ γ : Type} (creds : Except String τ)
    (dial : τ → String → Except String γ) (dst : Destination) :
    (∀ c e, (NewClient creds dial dst).1 = NewClientOutcome.ret c (some e) →
        c = some (zeroLocalClient γ))
    ∧ (∀ e, creds = Except.error e →
        (NewClient creds dial dst).1
            = NewClientOutcome.ret (some (zeroLocalClient γ)) (some e)
          ∧ (NewClient creds dial dst).2 = [])
    ∧ ((NewClient creds dial dst).2 ≠ [] → ∃ t, creds = Except.ok t) := by
  obtain ⟨Addrs⟩ := dst
  cases creds with
  | error e0 =>
      refine ⟨?_, ?_, ?_⟩
      · intro c e h
        have h2 : NewClientOutcome.ret (some (zeroLocalClient γ)) (some e0)
            = NewClientOutcome.ret c (some e) := h
        injection h2 with h3 h4
        exact h3.symm
      · intro e he
        injection he with h3
        subst h3
        exact ⟨rfl, rfl⟩
      · intro h
        exact absurd rfl h
  | ok t =>
      refine ⟨?_, ?_, ?_⟩
      · intro c e h
        cases Addrs with
        | nil => exact NewClientOutcome.noConfusion h
        | cons addr rest =>
            cases hd : dial t addr with
            | error e1 =>
                simp [NewClient, hd] at h
                first
                | exact h.1
                | exact h.1.symm
            | ok conn =>
                simp [NewClient, hd] at h
      · intro e he
        simp at he
      · intro h
        exact ⟨t, rfl⟩

/-- Claim C10 witness: a credential failure returns the zero-valued client
(a non-nil pointer) together with the provider's error. -/
theorem c10_failure_returns_zero_client_witness :
    (NewClient (Except.error "no credentials" : Except String Unit)
        (fun _ a => (Except.ok a : Except String String))
        (Destination.mk ["addr1"])).1
      = NewClientOutcome.ret (some (zeroLocalClient String)) (some "no credentials") :=
  ((c10_failure_returns_zero_client (Except.error "no credentials")
    (fun _ a => Except.ok a) (Destination.mk ["addr1"])).2.1 "no credentials" rfl).1
